import Mathlib

/-!
Shallow embedding of `scripts/fair-eva.py`, the FAIR EVA command-line client.

Modelling conventions:
* Python numbers (JSON-decoded floats) are modelled as exact rationals `ℚ`;
  `round(x, n)` is modelled as exact decimal round-half-even (`pyRound`),
  `"%.2f" % x` as `pyFmt2`, and `str(float)` as the minimal decimal
  rendering `pyFloatStr`.
* Python dicts are modelled as association lists in insertion order;
  `d[k]` raising `KeyError` is modelled through `Except String`.
* Python exceptions (`KeyError`, `ZeroDivisionError`, `TypeError`,
  pandas `ValueError`) are modelled as `Except.error` values;
  `sys.exit(code)` sites are modelled as explicit outcome constructors.
* Network and terminal I/O are modelled as explicit parameters: the
  readiness probe takes the per-attempt port status as a function
  `ℕ → Bool`, and the interactive disambiguation loop takes the stream of
  typed answers as a function `ℕ → String`.
-/

/-- Python banker's rounding of a rational to the nearest integer
(round half to even), modelling the builtin `round` applied to the exact
decimal value of the float. -/
def pyRoundInt (x : ℚ) : ℤ :=
  let f := ⌊x⌋
  let r := x - (f : ℚ)
  if r < 1/2 then f
  else if 1/2 < r then f + 1
  else if f % 2 = 0 then f else f + 1

/-- Python `round(x, n)`: round to `n` decimal places, half to even. -/
def pyRound (x : ℚ) (n : ℕ) : ℚ :=
  (pyRoundInt (x * 10 ^ n) : ℚ) / 10 ^ n

/-- Left-pad a decimal digit string with zeros up to `width` characters. -/
def padZeros (width : ℕ) (s : String) : String :=
  String.mk (List.replicate (width - s.length) '0') ++ s

/-- Python `"%.2f" % q`: fixed two-decimal formatting (round half to even). -/
def pyFmt2 (q : ℚ) : String :=
  let c := pyRoundInt (q * 100)
  let sign := if c < 0 then "-" else ""
  let a := c.natAbs
  sign ++ toString (a / 100) ++ "." ++ padZeros 2 (toString (a % 100))

/-- Fueled search for the number of decimal digits needed to write a
rational exactly: 0 when the denominator is already 1, else one more than
for `q * 10`. -/
def decDigitsAux (fuel : ℕ) (q : ℚ) : ℕ :=
  match fuel with
  | 0 => 0
  | fuel + 1 => if q.den = 1 then 0 else decDigitsAux fuel (q * 10) + 1

/-- Number of decimal digits needed to write `q` exactly (bounded search;
the values this client prints are finite decimals). -/
def decDigits (q : ℚ) : ℕ := decDigitsAux 64 q

/-- Python `str(float)`: minimal decimal rendering, always keeping at least
one fractional digit (`str(1.0) = "1.0"`, `str(0.8) = "0.8"`). -/
def pyFloatStr (q : ℚ) : String :=
  let e := decDigits q
  if e = 0 then toString q.num ++ ".0"
  else
    let sign := if q < 0 then "-" else ""
    let scaled := (q * (10:ℚ) ^ e).num.natAbs
    sign ++ toString (scaled / 10 ^ e) ++ "." ++ padZeros e (toString (scaled % 10 ^ e))

/-- A single-quote character, used by Python `str(dict)` rendering. -/
def sglq : String := (Char.ofNat 39).toString

/-- Python `str` of a string-to-string dict: `\x7b'k': 'v', ...\x7d`. -/
def pyStrDict (d : List (String × String)) : String :=
  "\x7b" ++ String.intercalate ", " (d.map (fun kv => sglq ++ kv.1 ++ sglq ++ ": " ++ sglq ++ kv.2 ++ sglq)) ++ "\x7d"

/-- One `\x7bmessage, points\x7d` record inside an indicator `msg` list
(`message` may be absent, per the `.get("message", ...)` at line 392). -/
structure MsgRecord where
  message : Option String
  points : ℚ
deriving DecidableEq

/-- An element of a `msg` list: either a plain string or a record
(the source inspects `message_data[0]` with `isinstance`). -/
inductive MsgItem
| s (text : String)
| record (r : MsgRecord)
deriving DecidableEq

/-- The dynamic shapes an indicator `msg` value can take
(string | dict | list), per `format_msg_for_table` lines 371-393. -/
inductive MsgData
| str (s : String)
| dict (d : List (String × String))
| list (items : List MsgItem)
deriving DecidableEq

/-- One raw indicator result from the evaluation response: internal name,
`points`, `score.weight` and `msg` (fair-eva.py consumes exactly these
fields; the `gettext` display annotations added by `calcpoints` do not
affect any value this development states properties about). -/
structure Indicator where
  name : String
  points : ℚ
  weight : ℚ
  msg : MsgData
deriving DecidableEq

/-- `FAIR_PRINCIPLES` constant, fair-eva.py line 35. -/
def FAIR_PRINCIPLES : List String :=
  ["findable", "accessible", "interoperable", "reusable"]

/-- One entry of the static RDA indicator catalog. -/
structure RdaEntry where
  id : String
  indicator : String
  priority : String
deriving DecidableEq

/-- `FAIR_RDA_INDICATORS` static table, fair-eva.py lines 37-248, in source
order.  The source dict literal repeats the key `RDA_A1_02D` (lines 83-87
and 93-97) with identical values; in Python the second occurrence
overwrites the first, and since the two values are equal the association
list below (first match wins on lookup) denotes the same mapping. -/
def FAIR_RDA_INDICATORS : List (String × RdaEntry) :=
  [("RDA_F1_01M", ⟨"RDA-F1-01M", "Metadata is identified by a persistent identifier", "Essential (***)"⟩),
   ("RDA_F1_01D", ⟨"RDA-F1-01D", "Data is identified by a persistent identifier", "Essential (***)"⟩),
   ("RDA_F1_02M", ⟨"RDA-F1-02M", "Metadata is identified by a globally unique identifier", "Essential (***)"⟩),
   ("RDA_F1_02D", ⟨"RDA-F1-02D", "Data is identified by a persistent identifier", "Essential (***)"⟩),
   ("RDA_F2_01M", ⟨"RDA-F2-01M", "Rich metadata is provided to allow discovery", "Essential (***)"⟩),
   ("RDA_F3_01M", ⟨"RDA-F3-01M", "Metadata includes the identifier for the data", "Essential (***)"⟩),
   ("RDA_F4_01M", ⟨"RDA-F4-01M", "Metadata is offered in such a way that it can be harvested and indexed", "Essential (***)"⟩),
   ("RDA_A1_01M", ⟨"RDA-A1-01M", "Metadata contains information to enable the user to get access to the data", "Important (**)"⟩),
   ("RDA_A1_02M", ⟨"RDA-A1-02M", "Metadata can be accessed manually (i.e. with human intervention)", "Essential (***)"⟩),
   ("RDA_A1_02D", ⟨"RDA-A1-02D", "Data can be accessed manually (i.e. with human intervention)", "Essential (***)"⟩),
   ("RDA_A1_03M", ⟨"RDA-A1-03M", "Metadata identifier resolves to a metadata record", "Essential (***)"⟩),
   ("RDA_A1_02D", ⟨"RDA-A1-02D", "Data can be accessed manually (i.e. with human intervention)", "Essential (***)"⟩),
   ("RDA_A1_03D", ⟨"RDA-A1-03D", "Data identifier resolves to a digital object", "Essential (***)"⟩),
   ("RDA_A1_04M", ⟨"RDA-A1-04M", "Metadata is accessed through standardised protocol", "Essential (***)"⟩),
   ("RDA_A1_04D", ⟨"RDA-A1-04D", "Data is accessed through standardised protocol", "Essential (***)"⟩),
   ("RDA_A1_05D", ⟨"RDA-A1-05D", "Data can be accessed automatically (i.e. by a computer program)", "Important (**)"⟩),
   ("RDA_A1_1_01M", ⟨"RDA-A1.1-01M", "Metadata is accessible through a free access protocol", "Essential (***)"⟩),
   ("RDA_A1_1_01D", ⟨"RDA-A1.1-01D", "Data is accessible through a free access protocol", "Important (**)"⟩),
   ("RDA_A1_2_01D", ⟨"RDA-A1.2-01D", "Data is accessible through an access protocol that supports authentication and authorisation", "Useful (*)"⟩),
   ("RDA_A2_01M", ⟨"RDA-A2-01M", "Metadata is guaranteed to remain available after data is no longer available", "Essential (***)"⟩),
   ("RDA_I1_01M", ⟨"RDA-I1-01M", "Metadata uses knowledge representation expressed in standardised format", "Important (**)"⟩),
   ("RDA_I1_01D", ⟨"RDA-I1-01D", "Data uses knowledge representation expressed in standardised format", "Important (**)"⟩),
   ("RDA_I1_02M", ⟨"RDA-I1-02M", "Metadata uses machine-understandable knowledge representation", "Important (**)"⟩),
   ("RDA_I1_02D", ⟨"RDA-I1-02D", "Data uses machine-understandable knowledge representation", "Important (**)"⟩),
   ("RDA_I2_01M", ⟨"RDA-I2-01M", "Metadata uses FAIR-compliant vocabularies", "Important (**)"⟩),
   ("RDA_I2_01D", ⟨"RDA-I2-01D", "Data uses FAIR-compliant vocabularies", "Useful (*)"⟩),
   ("RDA_I3_01M", ⟨"RDA-I3-01M", "Metadata includes references to other metadata", "Important (**)"⟩),
   ("RDA_I3_01D", ⟨"RDA-I3-01D", "Data includes references to other data", "Useful (*)"⟩),
   ("RDA_I3_02M", ⟨"RDA-I3-02M", "Metadata includes references to other data", "Important (**)"⟩),
   ("RDA_I3_02D", ⟨"RDA-I3-02D", "Data includes qualified references to other data", "Useful (*)"⟩),
   ("RDA_I3_03M", ⟨"RDA-I3-03M", "Metadata includes qualified references to other metadata", "Important (**)"⟩),
   ("RDA_I3_04M", ⟨"RDA-I3-04M", "Metadata includes qualified references to other data", "Useful (*)"⟩),
   ("RDA_R1_01M", ⟨"RDA-R1-01M", "Plurality of accurate and relevant attributes are provided to allow reuse", "Essential (***)"⟩),
   ("RDA_R1_1_01M", ⟨"RDA-R1.1-01M", "Metadata includes information about the licence under which the data can be reused", "Essential (***)"⟩),
   ("RDA_R1_1_02M", ⟨"RDA-R1.1-02M", "Metadata refers to a standard reuse licence", "Important (**)"⟩),
   ("RDA_R1_1_03M", ⟨"RDA-R1.1-03M", "Metadata refers to a machine understandable reuse licence", "Important (**)"⟩),
   ("RDA_R1_2_01M", ⟨"RDA-R1.2-01M", "Metadata includes provenance information according to community-specific standards", "Important (**)"⟩),
   ("RDA_R1_2_02M", ⟨"RDA-R1.2-02M", "Metadata includes provenance information according to a cross-community language", "Useful (*)"⟩),
   ("RDA_R1_3_01M", ⟨"RDA-R1.3-01M", "Metadata complies with a community standard", "Essential (***)"⟩),
   ("RDA_R1_3_01D", ⟨"RDA-R1.3-01D", "Data complies with a community standard", "Essential (***)"⟩),
   ("RDA_R1_3_02M", ⟨"RDA-R1.3-02M", "Metadata is expressed in compliance with a machine-understandable community standard", "Essential (***)"⟩),
   ("RDA_R1_3_02D", ⟨"RDA-R1.3-02D", "Data is expressed in compliance with a machine-understandable community standard", "Important (**)"⟩)]

/-- The inner `for kk in result[key]` loop of `calcpoints` (fair-eva.py
lines 352-363) on the loop-carried state
`(g_points, g_weight, result_points, weight_of_tests)`: for each indicator
it adds `points * weight` to both point accumulators and `weight` to both
weight accumulators.  (The `gettext` assignments at lines 353-357 only
attach display strings and are omitted: they do not affect the returned
scores.) -/
def innerLoop : List Indicator → ℚ × ℚ × ℚ × ℚ → ℚ × ℚ × ℚ × ℚ
| [], acc => acc
| i :: rest, (gp, gw, rp, wt) =>
    innerLoop rest (gp + i.points * i.weight, gw + i.weight, rp + i.points * i.weight, wt + i.weight)

/-- The outer `for key in keys[:-1]` loop of `calcpoints` (fair-eva.py
lines 349-365) over the remaining principle keys, threading
`result_points` and `weight_of_tests`.  `result[key]` on a missing key is
a `KeyError`; `round(g_points / g_weight, 3)` with `g_weight == 0` is a
`ZeroDivisionError`.  Returns the `points[key]` entries produced so far
plus the final two global accumulators. -/
def calcLoop (result : List (String × List Indicator)) :
    List String → ℚ → ℚ → Except String (List (String × ℚ) × ℚ × ℚ)
| [], rp, wt => .ok ([], rp, wt)
| key :: rest, rp, wt =>
    match List.lookup key result with
    | none => .error ("KeyError: " ++ key)
    | some inds =>
        match innerLoop inds (0, 0, rp, wt) with
        | (gp, gw, rp2, wt2) =>
            if gw = 0 then .error "ZeroDivisionError"
            else
              match calcLoop result rest rp2 wt2 with
              | .error e => .error e
              | .ok (pts, rpf, wtf) => .ok ((key, pyRound (gp / gw) 3) :: pts, rpf, wtf)

/-- `calcpoints` (fair-eva.py lines 342-368): per-principle weighted scores
rounded to 3 decimals, then a `"total"` entry rounded to 2 decimals; the
result models the `points` dict in insertion order. -/
def calcpoints (result : List (String × List Indicator)) :
    Except String (List (String × ℚ)) :=
  match calcLoop result FAIR_PRINCIPLES 0 0 with
  | .error e => .error e
  | .ok (pts, rp, wt) =>
      if wt = 0 then .error "ZeroDivisionError"
      else .ok (pts ++ [("total", pyRound (rp / wt) 2)])

/-- Sum of `points * weight` over a list of indicators. -/
def sumPW (l : List Indicator) : ℚ := (l.map (fun i => i.points * i.weight)).sum

/-- Sum of `weight` over a list of indicators. -/
def sumW (l : List Indicator) : ℚ := (l.map Indicator.weight).sum

/-- The spec-side formula: weighted average of points over a set of
indicators, `sum(points * weight) / sum(weight)`. -/
def weightedAvg (l : List Indicator) : ℚ := sumPW l / sumW l

lemma innerLoop_spec (l : List Indicator) :
    ∀ gp gw rp wt : ℚ,
      innerLoop l (gp, gw, rp, wt) = (gp + sumPW l, gw + sumW l, rp + sumPW l, wt + sumW l) := by
  induction l with
  | nil => intro gp gw rp wt; simp [innerLoop, sumPW, sumW]
  | cons i t ih =>
      intro gp gw rp wt
      simp only [innerLoop, ih, sumPW, sumW, List.map_cons, List.sum_cons]
      refine Prod.ext ?_ (Prod.ext ?_ (Prod.ext ?_ ?_)) <;> simp <;> ring

lemma sumW_cons (i : Indicator) (t : List Indicator) :
    sumW (i :: t) = i.weight + sumW t := by
  simp [sumW]

lemma sumW_nonneg (l : List Indicator) (h : ∀ i ∈ l, 0 < i.weight) : 0 ≤ sumW l := by
  induction l with
  | nil => simp [sumW]
  | cons i t ih =>
      have h1 : 0 < i.weight := h i (by simp)
      have h2 : 0 ≤ sumW t := ih (fun j hj => h j (by simp [hj]))
      rw [sumW_cons]
      linarith

lemma sumW_pos (l : List Indicator) (hne : l ≠ []) (h : ∀ i ∈ l, 0 < i.weight) :
    0 < sumW l := by
  cases l with
  | nil => exact absurd rfl hne
  | cons i t =>
      have h1 : 0 < i.weight := h i (by simp)
      have h2 : 0 ≤ sumW t := sumW_nonneg t (fun j hj => h j (by simp [hj]))
      rw [sumW_cons]
      linarith

lemma sumPW_append (a b : List Indicator) : sumPW (a ++ b) = sumPW a + sumPW b := by
  simp [sumPW]

lemma sumW_append (a b : List Indicator) : sumW (a ++ b) = sumW a + sumW b := by
  simp [sumW]

lemma calcLoop_cons (result : List (String × List Indicator)) (key : String)
    (rest : List String) (rp wt : ℚ) (inds : List Indicator)
    (hl : List.lookup key result = some inds) (hgw : sumW inds ≠ 0) :
    calcLoop result (key :: rest) rp wt =
      match calcLoop result rest (rp + sumPW inds) (wt + sumW inds) with
      | .error e => .error e
      | .ok (pts, rpf, wtf) =>
          .ok ((key, pyRound (sumPW inds / sumW inds) 3) :: pts, rpf, wtf) := by
  simp [calcLoop, hl, innerLoop_spec, hgw]

/-- C1: for every evaluation result in which each of the four FAIR
principles is present with at least one indicator (and, per the data
model, every indicator weight is positive), `calcpoints` returns for each
principle the weighted average `sum(points * weight) / sum(weight)` over
that principle's indicators rounded to 3 decimal places, and a grand
total equal to the weighted average over all indicators of all principles
rounded to 2 decimal places. -/
theorem calcpoints_weighted_average
    (result : List (String × List Indicator)) (lf la li lr : List Indicator)
    (hf : List.lookup "findable" result = some lf)
    (ha : List.lookup "accessible" result = some la)
    (hi : List.lookup "interoperable" result = some li)
    (hr : List.lookup "reusable" result = some lr)
    (hnf : lf ≠ []) (hna : la ≠ []) (hni : li ≠ []) (hnr : lr ≠ [])
    (hw : ∀ i ∈ lf ++ la ++ li ++ lr, 0 < i.weight) :
    calcpoints result = Except.ok
      [("findable", pyRound (weightedAvg lf) 3),
       ("accessible", pyRound (weightedAvg la) 3),
       ("interoperable", pyRound (weightedAvg li) 3),
       ("reusable", pyRound (weightedAvg lr) 3),
       ("total", pyRound (weightedAvg (lf ++ la ++ li ++ lr)) 2)] := by
  have hwf : 0 < sumW lf := sumW_pos lf hnf (fun i h => hw i (by simp [h]))
  have hwa : 0 < sumW la := sumW_pos la hna (fun i h => hw i (by simp [h]))
  have hwi : 0 < sumW li := sumW_pos li hni (fun i h => hw i (by simp [h]))
  have hwr : 0 < sumW lr := sumW_pos lr hnr (fun i h => hw i (by simp [h]))
  have htot : sumW lf + sumW la + sumW li + sumW lr ≠ 0 := by positivity
  unfold calcpoints FAIR_PRINCIPLES
  rw [calcLoop_cons result "findable" _ 0 0 lf hf (ne_of_gt hwf)]
  rw [calcLoop_cons result "accessible" _ _ _ la ha (ne_of_gt hwa)]
  rw [calcLoop_cons result "interoperable" _ _ _ li hi (ne_of_gt hwi)]
  rw [calcLoop_cons result "reusable" _ _ _ lr hr (ne_of_gt hwr)]
  simp only [calcLoop]
  have hts : 0 + sumPW lf + sumPW la + sumPW li + sumPW lr =
      sumPW (lf ++ la ++ li ++ lr) := by
    simp [sumPW_append]; ring
  have hws : 0 + sumW lf + sumW la + sumW li + sumW lr =
      sumW (lf ++ la ++ li ++ lr) := by
    simp [sumW_append]; ring
  have hwtot : 0 + sumW lf + sumW la + sumW li + sumW lr ≠ 0 := by
    simpa using htot
  simp only [hwtot, if_false, weightedAvg]
  rw [hts, hws]
  rfl

def c1sample : List (String × List Indicator) :=
  [("findable", [⟨"rda_f1_01m", 1, 1, .list []⟩]),
   ("accessible", [⟨"rda_a1_02m", 1/2, 1, .list []⟩]),
   ("interoperable", [⟨"rda_i1_01m", 1, 2, .list []⟩]),
   ("reusable", [⟨"rda_r1_01m", 3/4, 1, .list []⟩])]

/-- Witness for C1 at a concrete evaluation result: principle scores
1.000, 0.500, 1.000, 0.750 and total (1 + 0.5 + 2 + 0.75) / 5 = 0.85. -/
theorem calcpoints_weighted_average_witness :
    calcpoints c1sample = Except.ok
      [("findable", 1), ("accessible", 1/2), ("interoperable", 1),
       ("reusable", 3/4), ("total", 17/20)] := by
  have h := calcpoints_weighted_average c1sample
    [⟨"rda_f1_01m", 1, 1, .list []⟩] [⟨"rda_a1_02m", 1/2, 1, .list []⟩]
    [⟨"rda_i1_01m", 1, 2, .list []⟩] [⟨"rda_r1_01m", 3/4, 1, .list []⟩]
    (by rfl) (by rfl) (by rfl) (by rfl)
    (by simp) (by simp) (by simp) (by simp)
    (by intro i hi; simp at hi; rcases hi with h | h | h | h <;> rw [h] <;> norm_num)
  rw [h]
  simp only [weightedAvg, sumPW, sumW, List.map_cons, List.map_nil, List.sum_cons,
    List.sum_nil, List.cons_append, List.nil_append]
  norm_num [pyRound, pyRoundInt]

def c3sample : List (String × List Indicator) :=
  [("findable", []),
   ("accessible", [⟨"rda_a1_02m", 1, 1, .list []⟩]),
   ("interoperable", [⟨"rda_i1_01m", 1, 1, .list []⟩]),
   ("reusable", [⟨"rda_r1_01m", 1, 1, .list []⟩])]

/-- C3 counterexample: on an evaluation result whose `findable` principle
has zero indicators, `calcpoints` propagates the raw division-by-zero
fault (`round(g_points / g_weight, 3)` with `g_weight == 0`); no defined
`EmptyPrincipleError` or not-applicable sentinel is produced anywhere in
the source. -/
theorem calcpoints_empty_principle_counterexample :
    calcpoints c3sample = Except.error "ZeroDivisionError" := by
  simp [calcpoints, FAIR_PRINCIPLES, calcLoop, c3sample, innerLoop]

lemma calcLoop_zero_weight (result : List (String × List Indicator)) :
    ∀ (keys : List String) (rp wt : ℚ),
      (∀ k ∈ keys, ∃ l, List.lookup k result = some l) →
      (∃ k ∈ keys, ∃ l, List.lookup k result = some l ∧ sumW l = 0) →
      calcLoop result keys rp wt = Except.error "ZeroDivisionError" := by
  intro keys
  induction keys with
  | nil =>
      intro rp wt _ hex
      obtain ⟨k, hk, _⟩ := hex
      exact absurd hk (List.not_mem_nil k)
  | cons key rest ih =>
      intro rp wt hall hex
      obtain ⟨l, hl⟩ := hall key (by simp)
      by_cases hz : sumW l = 0
      · simp [calcLoop, hl, innerLoop_spec, hz]
      · have hex' : ∃ k ∈ rest, ∃ l, List.lookup k result = some l ∧ sumW l = 0 := by
          obtain ⟨k0, hk0mem, l0, hl0, hz0⟩ := hex
          rcases List.mem_cons.mp hk0mem with heq | hmem
          · subst heq
            rw [hl] at hl0
            rw [Option.some_inj.mp hl0] at hz
            exact absurd hz0 hz
          · exact ⟨k0, hmem, l0, hl0, hz0⟩
        have hrec := ih (rp + sumPW l) (wt + sumW l)
          (fun k hk => hall k (by simp [hk])) hex'
        simp [calcLoop, hl, innerLoop_spec, hz, hrec]

/-- C3 amended: for every evaluation result with the four principle maps
present of which at least one has zero indicators, `calcpoints` raises a
raw `ZeroDivisionError` (the arithmetic fault is propagated, not
converted into an `EmptyPrincipleError` or a not-applicable sentinel). -/
theorem calcpoints_empty_principle_raw_fault
    (result : List (String × List Indicator)) (lf la li lr : List Indicator)
    (hf : List.lookup "findable" result = some lf)
    (ha : List.lookup "accessible" result = some la)
    (hi : List.lookup "interoperable" result = some li)
    (hr : List.lookup "reusable" result = some lr)
    (hempty : lf = [] ∨ la = [] ∨ li = [] ∨ lr = []) :
    calcpoints result = Except.error "ZeroDivisionError" := by
  have hall : ∀ k ∈ FAIR_PRINCIPLES, ∃ l, List.lookup k result = some l := by
    intro k hk
    simp only [FAIR_PRINCIPLES, List.mem_cons, List.not_mem_nil, or_false] at hk
    rcases hk with rfl | rfl | rfl | rfl
    · exact ⟨lf, hf⟩
    · exact ⟨la, ha⟩
    · exact ⟨li, hi⟩
    · exact ⟨lr, hr⟩
  have hex : ∃ k ∈ FAIR_PRINCIPLES, ∃ l, List.lookup k result = some l ∧ sumW l = 0 := by
    rcases hempty with h | h | h | h
    · exact ⟨"findable", by simp [FAIR_PRINCIPLES], lf, hf, by rw [h]; rfl⟩
    · exact ⟨"accessible", by simp [FAIR_PRINCIPLES], la, ha, by rw [h]; rfl⟩
    · exact ⟨"interoperable", by simp [FAIR_PRINCIPLES], li, hi, by rw [h]; rfl⟩
    · exact ⟨"reusable", by simp [FAIR_PRINCIPLES], lr, hr, by rw [h]; rfl⟩
  have hcl := calcLoop_zero_weight result FAIR_PRINCIPLES 0 0 hall hex
  simp [calcpoints, hcl]

def c3sample2 : List (String × List Indicator) :=
  [("findable", [⟨"rda_f1_01m", 1, 1, .list []⟩]),
   ("accessible", []),
   ("interoperable", [⟨"rda_i1_01m", 1, 1, .list []⟩]),
   ("reusable", [⟨"rda_r1_01m", 1, 1, .list []⟩])]

/-- Witness for the amended C3 at two concrete inputs: one whose
`findable` principle is empty and one whose `accessible` principle is
empty while `findable` is not. -/
theorem calcpoints_empty_principle_raw_fault_witness :
    (calcpoints c3sample = Except.error "ZeroDivisionError" ∧
      List.lookup "findable" c3sample = some []) ∧
    (calcpoints c3sample2 = Except.error "ZeroDivisionError" ∧
      List.lookup "accessible" c3sample2 = some []) :=
  ⟨⟨calcpoints_empty_principle_raw_fault c3sample
      [] [⟨"rda_a1_02m", 1, 1, .list []⟩] [⟨"rda_i1_01m", 1, 1, .list []⟩]
      [⟨"rda_r1_01m", 1, 1, .list []⟩]
      (by rfl) (by rfl) (by rfl) (by rfl) (Or.inl rfl), by rfl⟩,
   ⟨calcpoints_empty_principle_raw_fault c3sample2
      [⟨"rda_f1_01m", 1, 1, .list []⟩] [] [⟨"rda_i1_01m", 1, 1, .list []⟩]
      [⟨"rda_r1_01m", 1, 1, .list []⟩]
      (by rfl) (by rfl) (by rfl) (by rfl) (Or.inr (Or.inl rfl)), by rfl⟩⟩

/-- The `"\n".join(message_data)` call at fair-eva.py line 382: succeeds
with the list of strings when every element is a string, and raises a
`TypeError` otherwise. -/
def allStrings : List MsgItem → Option (List String)
| [] => some []
| .s t :: rest => (allStrings rest).map (fun l => t :: l)
| .record _ :: _rest => none

/-- The list comprehension at fair-eva.py lines 385-390: for each item,
`item["message"]` and `item["points"]` rendered as
`"<message> (points: <points>)"`; a missing `message` key or a non-dict
item raises. -/
def allRecLines : List MsgItem → Option (List String)
| [] => some []
| .record r :: rest =>
    match r.message with
    | some m => (allRecLines rest).map
        (fun l => (m ++ " (points: " ++ pyFloatStr r.points ++ ")") :: l)
    | none => none
| .s _ :: _rest => none

/-- `format_msg_for_table` (fair-eva.py lines 371-393): strings verbatim;
dicts via `str`; otherwise a sequence, defaulting to "Not available" when
empty; a sequence whose first element is a string is newline-joined; a
sequence of records is newline-joined with point annotations when longer
than one, and yields the single record's `message` (default
"Not available") when of length one. -/
def format_msg_for_table : MsgData → Except String String
| .str s => .ok s
| .dict d => .ok (pyStrDict d)
| .list [] => .ok "Not available"
| .list (x :: rest) =>
    match x with
    | .s _ =>
        match allStrings (x :: rest) with
        | some l => .ok (String.intercalate "\n" l)
        | none => .error "TypeError: expected str instance"
    | .record r =>
        if rest.length + 1 > 1 then
          match allRecLines (x :: rest) with
          | some l => .ok (String.intercalate "\n" l)
          | none => .error "KeyError: message"
        else .ok (r.message.getD "Not available")

lemma allStrings_map (l : List String) : allStrings (l.map MsgItem.s) = some l := by
  induction l with
  | nil => rfl
  | cons h t ih => simp [allStrings, ih]

lemma allRecLines_map (l : List (String × ℚ)) :
    allRecLines (l.map (fun mp => MsgItem.record ⟨some mp.1, mp.2⟩)) =
      some (l.map (fun mp => mp.1 ++ " (points: " ++ pyFloatStr mp.2 ++ ")")) := by
  induction l with
  | nil => rfl
  | cons h t ih => simp [allRecLines, ih]

/-- C4: the tabular message normalization returns the string itself for
plain text; the `str` representation for a single mapping; the
placeholder "Not available" for an empty sequence; the newline-join for a
non-empty sequence of plain text; and for a sequence of
message/points records, the single record's message (placeholder if
absent) when there is exactly one record, and the newline-join of
"<message> (points: <points>)" per record when there is more than one. -/
theorem format_msg_for_table_spec :
    (∀ s, format_msg_for_table (.str s) = .ok s) ∧
    (∀ d, format_msg_for_table (.dict d) = .ok (pyStrDict d)) ∧
    (format_msg_for_table (.list []) = .ok "Not available") ∧
    (∀ l : List String, l ≠ [] →
      format_msg_for_table (.list (l.map MsgItem.s)) =
        .ok (String.intercalate "\n" l)) ∧
    (∀ r : MsgRecord, format_msg_for_table (.list [MsgItem.record r]) =
        .ok (r.message.getD "Not available")) ∧
    (∀ l : List (String × ℚ), 1 < l.length →
      format_msg_for_table
          (.list (l.map (fun mp => MsgItem.record ⟨some mp.1, mp.2⟩))) =
        .ok (String.intercalate "\n"
          (l.map (fun mp => mp.1 ++ " (points: " ++ pyFloatStr mp.2 ++ ")")))) := by
  refine ⟨fun s => rfl, fun d => rfl, rfl, ?_, ?_, ?_⟩
  · intro l hl
    cases l with
    | nil => exact absurd rfl hl
    | cons h t =>
        simp only [List.map_cons, format_msg_for_table, allStrings_map]
        rw [show allStrings (MsgItem.s h :: t.map MsgItem.s) = some (h :: t) from by
          simpa using allStrings_map (h :: t)]
  · intro r
    rfl
  · intro l hl
    cases l with
    | nil => simp at hl
    | cons a t =>
        cases t with
        | nil => simp at hl
        | cons b u =>
            simp only [List.map_cons, format_msg_for_table]
            rw [show allRecLines (MsgItem.record ⟨some a.1, a.2⟩ ::
                MsgItem.record ⟨some b.1, b.2⟩ :: u.map
                  (fun mp => MsgItem.record ⟨some mp.1, mp.2⟩)) =
                some ((a :: b :: u).map
                  (fun mp => mp.1 ++ " (points: " ++ pyFloatStr mp.2 ++ ")")) from by
              simpa using allRecLines_map (a :: b :: u)]
            simp

lemma decDigitsAux_succ (fuel : ℕ) (q : ℚ) :
    decDigitsAux (fuel + 1) q = if q.den = 1 then 0 else decDigitsAux fuel (q * 10) + 1 := rfl

lemma decDigits_one_step (q : ℚ) (h : ¬ q.den = 1) (h2 : (q * 10).den = 1) :
    decDigits q = 1 := by
  unfold decDigits
  rw [show (64:ℕ) = 63 + 1 from rfl, decDigitsAux_succ, if_neg h,
      show (63:ℕ) = 62 + 1 from rfl, decDigitsAux_succ, if_pos h2]

lemma decDigits_two_step (q : ℚ) (h : ¬ q.den = 1) (h1 : ¬ (q * 10).den = 1)
    (h2 : (q * 10 * 10).den = 1) : decDigits q = 2 := by
  unfold decDigits
  rw [show (64:ℕ) = 63 + 1 from rfl, decDigitsAux_succ, if_neg h,
      show (63:ℕ) = 62 + 1 from rfl, decDigitsAux_succ, if_neg h1,
      show (62:ℕ) = 61 + 1 from rfl, decDigitsAux_succ, if_pos h2]

lemma pyFloatStr_half : pyFloatStr (1/2 : ℚ) = "0.5" := by
  have hd : decDigits (1/2 : ℚ) = 1 :=
    decDigits_one_step _ (by norm_num) (by norm_num)
  have hnum : ((1/2 : ℚ) * 10 ^ 1).num = 5 := by norm_num
  have hneg : ¬ ((1/2 : ℚ) < 0) := by norm_num
  simp only [pyFloatStr, hd, hnum, hneg]
  norm_num
  rfl

/-- Witness for C4 at the spec's concrete examples: `[]` normalizes to
"Not available", a single record to its message "ok", and two records
with points 0.5 to the annotated newline-join. -/
theorem format_msg_for_table_spec_witness :
    format_msg_for_table (.list []) = .ok "Not available" ∧
    format_msg_for_table (.list [MsgItem.record ⟨some "ok", 1⟩]) = .ok "ok" ∧
    format_msg_for_table
        (.list [MsgItem.record ⟨some "a", 1/2⟩, MsgItem.record ⟨some "b", 1/2⟩]) =
      .ok ("a (points: 0.5)" ++ "\n" ++ "b (points: 0.5)") ∧
    format_msg_for_table (.list [MsgItem.s "x", MsgItem.s "y"]) =
      .ok ("x" ++ "\n" ++ "y") := by
  refine ⟨format_msg_for_table_spec.2.2.1, ?_, ?_, ?_⟩
  · exact format_msg_for_table_spec.2.2.2.2.1 ⟨some "ok", 1⟩
  · have h := format_msg_for_table_spec.2.2.2.2.2 [("a", 1/2), ("b", 1/2)] (by simp)
    simp only [List.map_cons, List.map_nil] at h
    rw [h, pyFloatStr_half]
    rfl
  · have h := format_msg_for_table_spec.2.2.2.1 ["x", "y"] (by simp)
    simpa using h

/-- The first loop of `collect_score_data` (fair-eva.py lines 398-401):
`fair_results[principle]` for each principle in order; a missing principle
key is a `KeyError`. -/
def build_ibp (fair_results : List (String × List Indicator)) :
    List String → Except String (List (List Indicator))
| [] => .ok []
| p :: rest =>
    match List.lookup p fair_results with
    | none => .error ("KeyError: " ++ p)
    | some v =>
        match build_ibp fair_results rest with
        | .error e => .error e
        | .ok ls => .ok (v :: ls)

/-- The row-building loop of `collect_score_data` (fair-eva.py lines
403-420): message normalization, two-decimal points formatting (indicator
points are floats in the evaluation response), catalog lookup by the
uppercased internal name (`KeyError` on a catalog miss), and one
four-element row per indicator. -/
def build_rows : List Indicator → Except String (List (List String))
| [] => .ok []
| ir :: rest =>
    match format_msg_for_table ir.msg with
    | .error e => .error e
    | .ok output_message =>
        match List.lookup ir.name.toUpper FAIR_RDA_INDICATORS with
        | none => .error ("KeyError: " ++ ir.name.toUpper)
        | some entry =>
            match build_rows rest with
            | .error e => .error e
            | .ok rows =>
                .ok ([entry.id, entry.indicator, pyFmt2 ir.points, output_message] :: rows)

/-- `collect_score_data` (fair-eva.py lines 396-422). -/
def collect_score_data (fair_results : List (String × List Indicator)) :
    Except String (List (List String)) :=
  match build_ibp fair_results FAIR_PRINCIPLES with
  | .error e => .error e
  | .ok ls => build_rows ls.flatten

/-- Python `response.get(key, default)` on a JSON object modelled as an
association list (fair-eva.py line 620 defaults to the empty dict). -/
def pyDictGet (response : List (String × List (String × List Indicator)))
    (key : String) : List (String × List Indicator) :=
  (List.lookup key response).getD []

def c2response : List (String × List (String × List Indicator)) :=
  [("some-other-id", [("findable", []), ("accessible", []),
                      ("interoperable", []), ("reusable", [])])]

/-- C2 counterexample: for a response whose top-level mapping does not
contain the requested identifier, `main` substitutes the empty dict
(`results_all.get(identifier, \x7b\x7d)`), which is not a four-principle
empty `EvaluationResult`; the subsequent `collect_score_data` then raises
`KeyError: findable` instead of succeeding with zero rows. -/
theorem collect_score_data_missing_id_counterexample :
    collect_score_data (pyDictGet c2response "requested-id") =
      Except.error "KeyError: findable" := by
  rfl

/-- C2 amended: for every response whose top-level mapping does not
contain the requested identifier, the client substitutes the empty
mapping (not an `EvaluationResult` with four empty principle maps), and
the subsequent aggregation step `collect_score_data` fails with a
key-lookup error on the first principle rather than succeeding with zero
indicator rows. -/
theorem collect_score_data_missing_id
    (response : List (String × List (String × List Indicator)))
    (identifier : String)
    (habs : List.lookup identifier response = none) :
    pyDictGet response identifier = [] ∧
    collect_score_data (pyDictGet response identifier) =
      Except.error "KeyError: findable" := by
  have h : pyDictGet response identifier = [] := by
    simp [pyDictGet, habs]
  exact ⟨h, by rw [h]; rfl⟩

/-- Witness for the amended C2 at a concrete response that only contains
results for a different identifier. -/
theorem collect_score_data_missing_id_witness :
    pyDictGet c2response "other-requested-id" = [] ∧
    collect_score_data (pyDictGet c2response "other-requested-id") =
      Except.error "KeyError: findable" :=
  collect_score_data_missing_id c2response "other-requested-id" (by rfl)

/-- `is_port_open` (fair-eva.py lines 331-339) as a function of the
network state: it takes no parameters in the source and always attempts a
TCP connection to host 127.0.0.1, port 9090. -/
def is_port_open (net : String → ℕ → Bool) : Bool := net "127.0.0.1" 9090

/-- The `for i in range(1, 5)` readiness loop of `main` (fair-eva.py
lines 583-591) with the outcome of attempt `i` given by `port_open i`:
returns the attempt number on which the service was first reachable, or
`none` when all four attempts fail (the 5-second sleeps between failed
attempts do not affect the outcome). -/
def probe_loop (port_open : ℕ → Bool) : List ℕ → Option ℕ
| [] => none
| i :: rest => if port_open i then some i else probe_loop port_open rest

/-- The readiness probe: `range(1, 5)` yields attempts 1, 2, 3, 4. -/
def readiness_probe (port_open : ℕ → Bool) : Option ℕ :=
  probe_loop port_open [1, 2, 3, 4]

/-- The gate at fair-eva.py lines 592-594: when the probe never succeeds,
`main` logs an error and calls `sys.exit(-1)`. -/
def main_gate (port_open : ℕ → Bool) : Except ℤ Unit :=
  match readiness_probe port_open with
  | some _ => .ok ()
  | none => .error (-1)

/-- C5: if the service is reachable on attempt `k` with `k ≤ 4` (and not
before), the readiness probe stops after exactly `k` connection attempts
and reports success; if all 4 attempts fail, the probe reports no success
and `main` exits with the non-zero status -1. -/
theorem readiness_probe_spec (port_open : ℕ → Bool) :
    (∀ k, 1 ≤ k → k ≤ 4 → port_open k = true →
      (∀ j, 1 ≤ j → j < k → port_open j = false) →
      readiness_probe port_open = some k ∧ main_gate port_open = .ok ()) ∧
    ((∀ j, 1 ≤ j → j ≤ 4 → port_open j = false) →
      readiness_probe port_open = none ∧
        main_gate port_open = .error (-1) ∧ (-1 : ℤ) ≠ 0) := by
  constructor
  · intro k h1 h4 hk hprev
    have hp : readiness_probe port_open = some k := by
      interval_cases k
      · simp [readiness_probe, probe_loop, hk]
      · simp [readiness_probe, probe_loop, hk,
          hprev 1 (by norm_num) (by norm_num)]
      · simp [readiness_probe, probe_loop, hk,
          hprev 1 (by norm_num) (by norm_num), hprev 2 (by norm_num) (by norm_num)]
      · simp [readiness_probe, probe_loop, hk,
          hprev 1 (by norm_num) (by norm_num), hprev 2 (by norm_num) (by norm_num),
          hprev 3 (by norm_num) (by norm_num)]
    exact ⟨hp, by simp [main_gate, hp]⟩
  · intro hall
    have hp : readiness_probe port_open = none := by
      simp [readiness_probe, probe_loop,
        hall 1 (by norm_num) (by norm_num), hall 2 (by norm_num) (by norm_num),
        hall 3 (by norm_num) (by norm_num), hall 4 (by norm_num) (by norm_num)]
    exact ⟨hp, by simp [main_gate, hp], by norm_num⟩

/-- Witness for C5: a service that becomes reachable on attempt 3 is
detected on exactly the third attempt, and a never-reachable service
makes the gate exit with status -1. -/
theorem readiness_probe_spec_witness :
    readiness_probe (fun j => j == 3) = some 3 ∧
      main_gate (fun j => j == 3) = .ok () ∧
      readiness_probe (fun _ => false) = none ∧
      main_gate (fun _ => false) = .error (-1) := by
  have h1 := (readiness_probe_spec (fun j => j == 3)).1 3 (by norm_num) (by norm_num)
    (by rfl) (by intro j hj1 hj3; interval_cases j <;> rfl)
  have h2 := (readiness_probe_spec (fun _ => false)).2 (fun j hj1 hj4 => rfl)
  exact ⟨h1.1, h1.2, h2.1, h2.2.1⟩

/-- One candidate of the search response (`title` and `id` fields of a
`results.distributions` entry, fair-eva.py lines 485-517). -/
structure Candidate where
  title : String
  id : String
deriving DecidableEq

/-- Accumulator pass over decimal digit characters; any non-digit
character fails the parse. -/
def parseDigits : List Char → ℕ → Option ℕ
| [], acc => some acc
| c :: rest, acc =>
    if c.isDigit then parseDigits rest (acc * 10 + (c.toNat - 48))
    else none

/-- Python `int(s)` on a stripped string: an optional sign followed by at
least one decimal digit; anything else raises `ValueError`, modelled as
`none`. -/
def pyInt (s : String) : Option ℤ :=
  match s.data with
  | [] => none
  | c :: rest =>
      if c = '-' then
        match rest with
        | [] => none
        | _ => (parseDigits rest 0).map (fun n => -(n : ℤ))
      else if c = '+' then
        match rest with
        | [] => none
        | _ => (parseDigits rest 0).map (fun n => (n : ℤ))
      else (parseDigits (c :: rest) 0).map (fun n => (n : ℤ))

/-- The `for j in range(max_tries)` input loop of `search` (fair-eva.py
lines 498-511) with `max_tries = 5`, reading answer `j` from the input
stream: `int(ind)` parse failure (the `except` branch) or an out-of-range
value consumes the attempt; a parsed integer `i` with
`-1 < i < number_of_items` breaks out with that index. -/
def select_loop (inputs : ℕ → String) (count : ℕ) : ℕ → ℕ → Option ℤ
| _, 0 => none
| j, fuel + 1 =>
    match pyInt (inputs j) with
    | some i =>
        if -1 < i ∧ i < (count : ℤ) then some i
        else select_loop inputs count (j + 1) fuel
    | none => select_loop inputs count (j + 1) fuel

/-- The whole disambiguation attempt loop: up to 5 answers. -/
def search_select (inputs : ℕ → String) (count : ℕ) : Option ℤ :=
  select_loop inputs count 0 5

/-- Whether one typed answer would be accepted by the loop (parses as an
integer in `(-1, count)`). -/
def validInput (count : ℕ) (s : String) : Bool :=
  match pyInt s with
  | some i => decide (-1 < i ∧ i < (count : ℤ))
  | none => false

/-- The value `search` returns (fair-eva.py lines 512-517): on success the
selected candidate's `id`; on exhaustion the empty tuple `()` after
printing "Max tries, restart program", modelled as `none`. -/
def search_result (cands : List Candidate) (inputs : ℕ → String) : Option String :=
  match search_select inputs cands.length with
  | some i => (cands[i.toNat]?).map Candidate.id
  | none => none

lemma select_loop_finds (inputs : ℕ → String) (count : ℕ) :
    ∀ (fuel k j : ℕ) (i : ℤ), k < fuel →
      pyInt (inputs (j + k)) = some i → (-1 < i ∧ i < (count : ℤ)) →
      (∀ t, t < k → validInput count (inputs (j + t)) = false) →
      select_loop inputs count j fuel = some i := by
  intro fuel
  induction fuel with
  | zero => intro k j i hk; omega
  | succ n ih =>
      intro k j i hk hparse hrange hprev
      cases k with
      | zero =>
          have hj : pyInt (inputs j) = some i := by simpa using hparse
          simp [select_loop, hj, hrange]
      | succ m =>
          have h0 : validInput count (inputs j) = false := by
            simpa using hprev 0 (Nat.succ_pos m)
          have hparse' : pyInt (inputs ((j + 1) + m)) = some i := by
            have he : (j + 1) + m = j + (m + 1) := by omega
            rw [he]; exact hparse
          have hprev' : ∀ t, t < m → validInput count (inputs ((j + 1) + t)) = false := by
            intro t ht
            have he : (j + 1) + t = j + (t + 1) := by omega
            rw [he]; exact hprev (t + 1) (by omega)
          have hrec := ih m (j + 1) i (by omega) hparse' hrange hprev'
          cases hp : pyInt (inputs j) with
          | none => simpa [select_loop, hp] using hrec
          | some iv =>
              have hno : ¬ (-1 < iv ∧ iv < (count : ℤ)) := by
                have := h0
                simp [validInput, hp] at this
                intro hc
                exact absurd hc.2 (by simpa using this hc.1)
              simpa [select_loop, hp, hno] using hrec

/-- C6: for every non-empty candidate list and input stream, if answer `k`
(with `k < 5`) is the first that parses as an integer in the inclusive
range `[0, candidate_count - 1]` while every earlier answer is invalid,
the disambiguation loop accepts it and yields that candidate's
identifier; invalid answers only consume attempts, without crashing. -/
theorem search_first_valid_selects
    (cands : List Candidate) (inputs : ℕ → String) (k : ℕ) (i : ℤ)
    (_hne : cands ≠ []) (hk : k < 5)
    (hparse : pyInt (inputs k) = some i)
    (hrange : -1 < i ∧ i < (cands.length : ℤ))
    (hprev : ∀ j, j < k → validInput cands.length (inputs j) = false) :
    search_select inputs cands.length = some i ∧
    ∃ c, cands[i.toNat]? = some c ∧ search_result cands inputs = some c.id := by
  have hs : search_select inputs cands.length = some i :=
    select_loop_finds inputs cands.length 5 k 0 i hk (by simpa using hparse)
      hrange (by simpa using hprev)
  have hlt : i.toNat < cands.length := by omega
  refine ⟨hs, cands[i.toNat], List.getElem?_eq_getElem hlt, ?_⟩
  simp [search_result, hs, List.getElem?_eq_getElem hlt]

def c6cands : List Candidate := [⟨"A", "idA"⟩, ⟨"B", "idB"⟩, ⟨"C", "idC"⟩]

def c6inputs : ℕ → String := fun j => ["x", "7", "1"].getD j ""

/-- Witness for C6 at the spec's example: candidates A, B, C and inputs
"x", "7", "1"; the third attempt succeeds and selects the candidate at
index 1. -/
theorem search_first_valid_selects_witness :
    search_select c6inputs c6cands.length = some 1 ∧
      search_result c6cands c6inputs = some "idB" := by
  have h := search_first_valid_selects c6cands c6inputs 2 1
    (by simp [c6cands]) (by norm_num) (by rfl)
    (by constructor <;> simp [c6cands])
    (by intro j hj; interval_cases j <;> rfl)
  obtain ⟨hs, c, hc, hres⟩ := h
  have hcv : c = ⟨"B", "idB"⟩ := by
    have : c6cands[(1 : ℤ).toNat]? = some (⟨"B", "idB"⟩ : Candidate) := by rfl
    rw [this] at hc
    exact (Option.some_inj.mp hc).symm
  exact ⟨hs, by rw [hres, hcv]⟩

/-- What happens in `main` between resolving the identifier and the
evaluation POST. -/
inductive EvalPhase
| crashedBeforeRequest (err : String)
| requested (ident : String)
deriving DecidableEq

/-- Embeds fair-eva.py lines 600-613 after `identifier = search(...)`.
The guard `if search == True:` at line 608 compares the function object
`search` with `True` and is therefore always false, so control reaches
`logging.info("Evaluating item with id : " + identifier)` at line 611.
When `search` returned the empty tuple `()` (modelled `none`),
concatenating `str + tuple` raises a `TypeError` there — before the
`requests.post` at line 613 is ever reached; with a string identifier the
log line succeeds and the evaluation request is issued. -/
def main_eval_phase : Option String → EvalPhase
| none => .crashedBeforeRequest "TypeError: can only concatenate str (not tuple) to str"
| some i => .requested i

def c7inputs : ℕ → String := fun _ => "x"

/-- C7 counterexample: with candidates A, B, C and five invalid answers,
`search` yields no identifier, and `main` then crashes with a `TypeError`
instead of halting the evaluation flow cleanly. -/
theorem search_exhausted_counterexample :
    search_result c6cands c7inputs = none ∧
    main_eval_phase (search_result c6cands c7inputs) =
      .crashedBeforeRequest "TypeError: can only concatenate str (not tuple) to str" := by
  constructor <;> rfl

lemma select_loop_all_invalid (inputs : ℕ → String) (count : ℕ) :
    ∀ (fuel j : ℕ), (∀ t, t < fuel → validInput count (inputs (j + t)) = false) →
      select_loop inputs count j fuel = none := by
  intro fuel
  induction fuel with
  | zero => intro j _; rfl
  | succ n ih =>
      intro j hall
      have h0 : validInput count (inputs j) = false := by
        simpa using hall 0 (Nat.succ_pos n)
      have hrec : select_loop inputs count (j + 1) n = none := by
        apply ih
        intro t ht
        have he : (j + 1) + t = j + (t + 1) := by omega
        rw [he]
        exact hall (t + 1) (by omega)
      cases hp : pyInt (inputs j) with
      | none => simpa [select_loop, hp] using hrec
      | some iv =>
          have hno : ¬ (-1 < iv ∧ iv < (count : ℤ)) := by
            have := h0
            simp [validInput, hp] at this
            intro hc
            exact absurd hc.2 (by simpa using this hc.1)
          simpa [select_loop, hp, hno] using hrec

/-- C7 amended: when all 5 disambiguation attempts are consumed by
invalid inputs, `search` aborts non-fatally and yields no identifier, and
no evaluation request is issued — but the caller does not halt cleanly:
`main` raises a `TypeError` while concatenating the empty-tuple result
into its log message, before the evaluation POST. -/
theorem search_exhausted_crashes
    (cands : List Candidate) (inputs : ℕ → String)
    (hall : ∀ j, j < 5 → validInput cands.length (inputs j) = false) :
    search_result cands inputs = none ∧
    main_eval_phase (search_result cands inputs) =
      .crashedBeforeRequest "TypeError: can only concatenate str (not tuple) to str" ∧
    (∀ ident, main_eval_phase (search_result cands inputs) ≠ .requested ident) := by
  have hs : search_select inputs cands.length = none := by
    apply select_loop_all_invalid
    intro t ht
    simpa using hall t ht
  have hr : search_result cands inputs = none := by
    simp [search_result, hs]
  refine ⟨hr, by rw [hr]; rfl, ?_⟩
  intro ident
  rw [hr]
  simp [main_eval_phase]

/-- Witness for the amended C7 at the concrete all-invalid input stream. -/
theorem search_exhausted_crashes_witness :
    search_result c6cands (fun _ => "nope") = none ∧
    main_eval_phase (search_result c6cands (fun _ => "nope")) =
      .crashedBeforeRequest "TypeError: can only concatenate str (not tuple) to str" := by
  have h := search_exhausted_crashes c6cands (fun _ => "nope")
    (by intro j hj; rfl)
  exact ⟨h.1, h.2.1⟩

/-- The `pd.to_numeric` coercion applied to one score cell: an optional
sign, decimal digits, and an optional fractional part; anything else
raises a `ValueError`, modelled as `none`. -/
def pdToNumeric (s : String) : Option ℚ :=
  match s.data with
  | [] => none
  | c :: rest =>
      let sgn : ℚ := if c = '-' then -1 else 1
      let body := if c = '-' then rest else c :: rest
      match body.span (fun ch => ch ≠ '.') with
      | (whole, []) =>
          match whole, parseDigits whole 0 with
          | [], _ => none
          | _, some n => some (sgn * (n : ℚ))
          | _, none => none
      | (whole, _ :: frac) =>
          match parseDigits whole 0, parseDigits frac 0 with
          | some w, some f =>
              if whole.isEmpty ∧ frac.isEmpty then none
              else some (sgn * ((w : ℚ) + (f : ℚ) / 10 ^ frac.length))
          | _, _ => none

/-- The coerced score column `pd.to_numeric(dframe["score"])` over all
rows (column index 2); a non-numeric cell raises. -/
def allScores : List (List String) → Option (List ℚ)
| [] => some []
| r :: rest =>
    match pdToNumeric (r.getD 2 "") with
    | some q => (allScores rest).map (fun l => q :: l)
    | none => none

/-- The observable outcome of `store`: either the `sys.exit(-1)` for an
unsupported format (no file written), or the file that is written, with
its path, column labels and coerced score column. -/
inductive StoreOutcome
| fatalExit (code : ℤ)
| stored (filePath : String) (columns : List String) (scores : List ℚ)
deriving DecidableEq

/-- `store` (fair-eva.py lines 526-548): builds the data frame and
coerces the score column first (a pandas `ValueError` there precedes
everything else), then computes
`fair_eva_results-<identifier>.<format>` under `path`, exits fatally with
status -1 when the format is not feather/csv, and otherwise writes the
four-column frame to that path. -/
def store (identifier : String) (score_data : List (List String))
    (file_format : String) (path : String) : Except String StoreOutcome :=
  if ((score_data.map List.length).foldr max 0) ≠ 4 then
    .error "ValueError: Length mismatch for columns"
  else
    match allScores score_data with
    | none => .error "ValueError: unable to parse string as numeric"
    | some scores =>
        let file_name := "fair_eva_results-" ++ identifier ++ "." ++ file_format
        let file_path := path ++ "/" ++ file_name
        if file_format ≠ "feather" ∧ file_format ≠ "csv" then .ok (.fatalExit (-1))
        else .ok (.stored file_path
          ["fair_indicator", "fair_principle", "score", "message"] scores)

/-- C8: a persist request with a format outside feather/csv fails fatally
(exit -1 or a pandas exception) and never writes a file; a csv request for
identifier "abc123" writes `/tmp/fair_eva_results-abc123.csv` with exactly
the four columns fair_indicator, fair_principle, score, message, carrying
the numerically coerced score column. -/
theorem store_spec :
    (∀ identifier score_data file_format path p c sc,
      file_format ≠ "feather" → file_format ≠ "csv" →
      store identifier score_data file_format path ≠
        Except.ok (StoreOutcome.stored p c sc)) ∧
    (∀ score_data scores,
      ((score_data.map List.length).foldr max 0) = 4 →
      allScores score_data = some scores →
      store "abc123" score_data "csv" "/tmp" =
        Except.ok (StoreOutcome.stored "/tmp/fair_eva_results-abc123.csv"
          ["fair_indicator", "fair_principle", "score", "message"] scores)) := by
  constructor
  · intro identifier score_data file_format path p c sc hf hc
    unfold store
    by_cases h4 : ((score_data.map List.length).foldr max 0) = 4
    · simp only [h4, ne_eq, not_true_eq_false, if_false]
      cases hsc : allScores score_data with
      | none => simp
      | some scores =>
          have : file_format ≠ "feather" ∧ file_format ≠ "csv" := ⟨hf, hc⟩
          simp [this]
    · simp [h4]
  · intro score_data scores h4 hsc
    unfold store
    rw [if_neg (by simp [h4]), hsc]
    dsimp only
    rw [if_neg (by decide)]
    rfl

def c8rows : List (List String) :=
  [["RDA-F1-01M", "Metadata is identified by a persistent identifier",
    "1.00", "Not available"]]

/-- Witness for C8: an "xml" request never yields a stored file, and a
csv request for "abc123" with one well-formed row stores
`/tmp/fair_eva_results-abc123.csv` with the four columns. -/
theorem store_spec_witness :
    ("xml" ≠ "feather" ∧ "xml" ≠ "csv" ∧
      store "abc" c8rows "xml" "/tmp" ≠
        Except.ok (StoreOutcome.stored "/tmp/fair_eva_results-abc.xml"
          ["fair_indicator", "fair_principle", "score", "message"] [1])) ∧
    store "abc123" c8rows "csv" "/tmp" =
      Except.ok (StoreOutcome.stored "/tmp/fair_eva_results-abc123.csv"
        ["fair_indicator", "fair_principle", "score", "message"] [1]) := by
  have hval : pdToNumeric "1.00" = some 1 := by
    have h : pdToNumeric "1.00" =
        some ((1 : ℚ) * ((1 : ℕ) + ((0 : ℕ) : ℚ) / 10 ^ 2)) := by rfl
    rw [h]
    norm_num
  have hsc : allScores c8rows = some [1] := by
    simp [allScores, c8rows, hval]
  refine ⟨⟨by decide, by decide, ?_⟩, ?_⟩
  · exact store_spec.1 "abc" c8rows "xml" "/tmp" _ _ _ (by decide) (by decide)
  · exact store_spec.2 c8rows [1] (by rfl) hsc

/-- Python `str.capitalize`: first character uppercased, the rest
lowercased. -/
def pyCapitalize (s : String) : String :=
  match s.data with
  | [] => ""
  | c :: rest => String.mk (c.toUpper :: rest.map Char.toLower)

/-- One rendered line of the summary table: a data row (two cells) or a
horizontal divider rule. -/
inductive SummaryLine
| row (name score : String)
| divider
deriving DecidableEq

/-- The `for principle_name, principle_score in totals.items()` loop of
`print_table` (fair-eva.py lines 443-451): each row shows the capitalized
principle name and the `%.2f`-formatted score; `has_divider` is set once
`principle_count` reaches `principle_len` and stays set, and prettytable
renders a row added with `divider=True` followed by a horizontal rule. -/
def principle_rows (total_len : ℕ) : List (String × ℚ) → ℕ → Bool → List SummaryLine
| [], _, _ => []
| (k, v) :: rest, count, has_div =>
    let count' := count + 1
    let has_div' := has_div || (count' == total_len)
    SummaryLine.row (pyCapitalize k) (pyFmt2 v) ::
      ((if has_div' then [SummaryLine.divider] else []) ++
        principle_rows total_len rest count' has_div')

/-- The summary table body built by `print_table` when totals are present
(fair-eva.py lines 433-453): `total_score = totals.pop("total", "NA")`
removes the total entry, the remaining principles are rendered in order,
and a final "Total" row carries the grand total (stringified by
prettytable). -/
def summary_lines (totals : List (String × ℚ)) : List SummaryLine :=
  let total_cell :=
    match List.lookup "total" totals with
    | some q => pyFloatStr q
    | none => "NA"
  let remaining := totals.filter (fun kv => !(kv.1 == "total"))
  principle_rows remaining.length remaining 0 false ++
    [SummaryLine.row "Total" total_cell]

/-- A printed block of `print_table`: the summary table or the
per-indicator detail table. -/
inductive OutputBlock
| summary (lines : List SummaryLine)
| detail (rows : List (List String))
deriving DecidableEq

/-- `print_table` (fair-eva.py lines 425-456): the detail table is always
printed; when `totals` is non-empty the summary table is printed first. -/
def print_table (indicator_rows : List (List String))
    (totals : List (String × ℚ)) : List OutputBlock :=
  if totals.isEmpty then [.detail indicator_rows]
  else [.summary (summary_lines totals), .detail indicator_rows]

lemma pyFmt2_one : pyFmt2 (1 : ℚ) = "1.00" := by
  have h : pyRoundInt ((1 : ℚ) * 100) = 100 := by norm_num [pyRoundInt]
  simp only [pyFmt2, h]
  rfl

lemma pyFmt2_half : pyFmt2 (1/2 : ℚ) = "0.50" := by
  have h : pyRoundInt ((1/2 : ℚ) * 100) = 50 := by norm_num [pyRoundInt]
  simp only [pyFmt2, h]
  rfl

lemma pyFmt2_three_quarters : pyFmt2 (3/4 : ℚ) = "0.75" := by
  have h : pyRoundInt ((3/4 : ℚ) * 100) = 75 := by norm_num [pyRoundInt]
  simp only [pyFmt2, h]
  rfl

lemma pyFloatStr_four_fifths : pyFloatStr (4/5 : ℚ) = "0.8" := by
  have hd : decDigits (4/5 : ℚ) = 1 :=
    decDigits_one_step _ (by norm_num) (by norm_num)
  have hnum : ((4/5 : ℚ) * 10 ^ 1).num = 8 := by norm_num
  have hneg : ¬ ((4/5 : ℚ) < 0) := by norm_num
  simp only [pyFloatStr, hd, hnum, hneg]
  norm_num
  rfl

def c9totals : List (String × ℚ) :=
  [("findable", 1), ("accessible", 1/2), ("interoperable", 1),
   ("reusable", 3/4), ("total", 4/5)]

lemma summary_lines_c9totals :
    summary_lines c9totals =
      [SummaryLine.row "Findable" "1.00", SummaryLine.row "Accessible" "0.50",
       SummaryLine.row "Interoperable" "1.00", SummaryLine.row "Reusable" "0.75",
       SummaryLine.divider, SummaryLine.row "Total" "0.8"] := by
  have hfilter : c9totals.filter (fun kv => !(kv.1 == "total")) =
      [("findable", 1), ("accessible", 1/2), ("interoperable", 1),
       ("reusable", 3/4)] := rfl
  have hlookup : List.lookup "total" c9totals = some (4/5 : ℚ) := rfl
  simp only [summary_lines]
  rw [hfilter, hlookup]
  simp only [principle_rows, List.length_cons, List.length_nil,
    pyFmt2_one, pyFmt2_half, pyFmt2_three_quarters, pyFloatStr_four_fifths]
  norm_num
  exact ⟨rfl, rfl, rfl, rfl⟩

/-- C9 counterexample: for the totals of `c9totals`, the rendered summary
places its single divider immediately after the last principle row
("Reusable", index 3) — that is, immediately before the "Total" row — and
not immediately before the last principle row as the claim states: the
line at index 3 is the "Reusable" row, not a divider. -/
theorem print_table_divider_counterexample :
    summary_lines c9totals =
      [SummaryLine.row "Findable" "1.00", SummaryLine.row "Accessible" "0.50",
       SummaryLine.row "Interoperable" "1.00", SummaryLine.row "Reusable" "0.75",
       SummaryLine.divider, SummaryLine.row "Total" "0.8"] ∧
    ¬ (summary_lines c9totals)[3]? = some SummaryLine.divider := by
  refine ⟨summary_lines_c9totals, ?_⟩
  rw [summary_lines_c9totals]
  simp

lemma principle_rows_concat (front : List (String × ℚ)) (k : String) (v : ℚ) :
    ∀ n c : ℕ, c + front.length + 1 = n →
      principle_rows n (front ++ [(k, v)]) c false =
        (front.map (fun kv => SummaryLine.row (pyCapitalize kv.1) (pyFmt2 kv.2))) ++
        [SummaryLine.row (pyCapitalize k) (pyFmt2 v), SummaryLine.divider] := by
  induction front with
  | nil =>
      intro n c hc
      have hn : c + 1 = n := by simpa using hc
      simp [principle_rows, hn]
  | cons kv0 f ih =>
      intro n c hc
      have hlt : ¬ (c + 1 = n) := by
        simp only [List.length_cons] at hc
        omega
      obtain ⟨k0, v0⟩ := kv0
      simp only [List.cons_append, principle_rows, Bool.false_or]
      rw [show ((c + 1 == n) = false) from by simpa using hlt]
      simp only [Bool.false_eq_true, if_false, List.nil_append, List.append_eq]
      rw [ih n (c + 1) (by simp only [List.length_cons] at hc; omega)]
      simp

lemma lookup_total_append (l : List (String × ℚ)) (t : ℚ)
    (h : ∀ kv ∈ l, kv.1 ≠ "total") :
    List.lookup "total" (l ++ [("total", t)]) = some t := by
  induction l with
  | nil => simp [List.lookup]
  | cons kv rest ih =>
      obtain ⟨k0, v0⟩ := kv
      have hk : k0 ≠ "total" := h (k0, v0) (by simp)
      simp only [List.cons_append, List.lookup]
      rw [show (("total" == k0) = false) from by
        simpa using fun he => hk he.symm]
      exact ih (fun kv hkv => h kv (by simp [hkv]))

lemma filter_total_append (l : List (String × ℚ)) (t : ℚ)
    (h : ∀ kv ∈ l, kv.1 ≠ "total") :
    List.filter (fun kv => !(kv.1 == "total")) (l ++ [("total", t)]) = l := by
  induction l with
  | nil => simp
  | cons kv rest ih =>
      obtain ⟨k0, v0⟩ := kv
      have hk : k0 ≠ "total" := h (k0, v0) (by simp)
      simp only [List.cons_append, List.filter]
      rw [show ((k0 == "total") = false) from by simpa using hk]
      simp only [Bool.not_false, List.append_eq]
      rw [ih (fun kv hkv => h kv (by simp [hkv]))]

/-- C9 amended: for every non-empty totals mapping (principles followed by
the "total" entry), the renderer prints the summary table before the
detail table, one row per principle with the capitalized name and the
2-decimal score, a single visual divider immediately AFTER the last
principle row (that is, immediately before the final "Total" row), and the
"Total" row carrying the grand total last. -/
theorem print_table_summary_layout
    (indicator_rows : List (List String)) (front : List (String × ℚ))
    (k : String) (v : ℚ) (t : ℚ)
    (hkeys : ∀ kv ∈ front ++ [(k, v)], kv.1 ≠ "total") :
    print_table indicator_rows ((front ++ [(k, v)]) ++ [("total", t)]) =
      [OutputBlock.summary
        ((front.map (fun kv => SummaryLine.row (pyCapitalize kv.1) (pyFmt2 kv.2))) ++
         [SummaryLine.row (pyCapitalize k) (pyFmt2 v), SummaryLine.divider,
          SummaryLine.row "Total" (pyFloatStr t)]),
       OutputBlock.detail indicator_rows] := by
  have hne : ¬ (((front ++ [(k, v)]) ++ [("total", t)]).isEmpty = true) := by
    simp
  simp only [print_table, hne, if_false]
  have hlk := lookup_total_append (front ++ [(k, v)]) t hkeys
  have hfl := filter_total_append (front ++ [(k, v)]) t hkeys
  simp only [summary_lines]
  rw [hlk, hfl]
  rw [principle_rows_concat front k v (front ++ [(k, v)]).length 0
    (by simp)]
  simp

/-- Witness for the amended C9 at the concrete totals `c9totals`. -/
theorem print_table_summary_layout_witness :
    print_table [] c9totals =
      [OutputBlock.summary
        [SummaryLine.row "Findable" "1.00", SummaryLine.row "Accessible" "0.50",
         SummaryLine.row "Interoperable" "1.00", SummaryLine.row "Reusable" "0.75",
         SummaryLine.divider, SummaryLine.row "Total" "0.8"],
       OutputBlock.detail []] := by
  have h := print_table_summary_layout []
    [("findable", 1), ("accessible", 1/2), ("interoperable", 1)]
    "reusable" (3/4) (4/5)
    (by decide)
  simp only [List.map_cons, List.map_nil] at h
  rw [pyFmt2_one, pyFmt2_half, pyFmt2_three_quarters, pyFloatStr_four_fifths,
      show pyCapitalize "findable" = "Findable" from rfl,
      show pyCapitalize "accessible" = "Accessible" from rfl,
      show pyCapitalize "interoperable" = "Interoperable" from rfl,
      show pyCapitalize "reusable" = "Reusable" from rfl] at h
  simpa [c9totals] using h

/-- The parsed command-line arguments of `get_input_args` (fair-eva.py
lines 260-328). -/
structure Args where
  id : Option String
  plugin : Option String
  repository : Option String
  api_endpoint : String
  json : Bool
  totals : Bool
  logs : Bool
  search : Option String
  store_feather : Bool
  store_csv : Bool
deriving DecidableEq

/-- The readiness probe as run by `main` (fair-eva.py lines 583-591) given
the parsed arguments and the network state: `is_port_open()` takes no
parameters and always probes 127.0.0.1:9090, so no field of `args` — in
particular not `api_endpoint` (`--api-endpoint`, line 564 `url`) — enters
the probe. -/
def main_probe (_args : Args) (net : String → ℕ → Bool) : Option ℕ :=
  readiness_probe (fun _ => is_port_open net)

/-- C10: two runs that differ only in the configured evaluation service
URL (`--api-endpoint`) have identical readiness-probe behavior, because
`is_port_open` takes no parameters and always attempts the TCP connection
to host 127.0.0.1, port 9090. -/
theorem main_probe_ignores_api_endpoint :
    (∀ (a : Args) (e₁ e₂ : String) (net : String → ℕ → Bool),
      main_probe { a with api_endpoint := e₁ } net =
        main_probe { a with api_endpoint := e₂ } net) ∧
    (∀ net : String → ℕ → Bool, is_port_open net = net "127.0.0.1" 9090) :=
  ⟨fun _ _ _ _ => rfl, fun _ => rfl⟩
